import Mathlib

/-!
Shallow embedding of `src/app.py` (badnetwork): a Flask tool that renders
tc/netem + iptables shell scripts from a small configuration, plus preset
save/load.  Pure rendering functions are translated directly; the preset
file store is modelled as an association list from sanitized names to the
flat key-value records that `json.dump(asdict(cfg))` writes.
-/

namespace BadNetwork

/-- Characters removed by Python `str.strip()` (the ASCII whitespace set:
space, tab, newline, carriage return, vertical tab, form feed). -/
def pyIsSpace (c : Char) : Bool :=
  c == ' ' || c == '\t' || c == '\n' || c == '\r' || c == Char.ofNat 11 || c == Char.ofNat 12

/-- Python `str.strip()`: drop leading and trailing whitespace. -/
def pyStrip (s : String) : String :=
  String.mk (((s.data.dropWhile pyIsSpace).reverse.dropWhile pyIsSpace).reverse)

/-- The single-quote character (written by code point to keep source plain). -/
def squoteC : Char := Char.ofNat 39

/-- The double-quote character. -/
def dquoteC : Char := Char.ofNat 34

/-- Characters `shlex.quote` leaves unquoted: the complement of CPython's
`_find_unsafe` ASCII regex (not word, `@ % + = : , . slash -`), so ASCII
alphanumerics, underscore and `@ % + = : , . / -`. -/
def shlexSafeChar (c : Char) : Bool :=
  c.isAlphanum || c == '_' || c == '@' || c == '%' || c == '+' || c == '=' ||
  c == ':' || c == ',' || c == '.' || c == '/' || c == '-'

/-- Per-character expansion of `s.replace("'", "'\"'\"'")` in `shlex.quote`
(the pattern is a single character, so the replacement acts characterwise):
a single quote becomes the five characters quote, dquote, quote, dquote, quote. -/
def escapeChar (c : Char) : List Char :=
  if c == squoteC then [squoteC, dquoteC, squoteC, dquoteC, squoteC] else [c]

/-- Characterwise concatenation realising the `str.replace` above. -/
def escapeConcat : List Char → List Char
  | [] => []
  | c :: cs => escapeChar c ++ escapeConcat cs

/-- CPython `shlex.quote` on the character list of the argument:
empty string becomes `''`; a string of safe characters is returned as is;
otherwise the string is wrapped in single quotes with embedded single
quotes escaped. -/
def shlexQuoteData (l : List Char) : List Char :=
  if l.isEmpty then [squoteC, squoteC]
  else if l.all shlexSafeChar then l
  else squoteC :: (escapeConcat l ++ [squoteC])

/-- CPython `shlex.quote`. -/
def shlexQuote (s : String) : String := String.mk (shlexQuoteData s.data)

/-- app.py `quote`: `shlex.quote(value.strip()) if value else ""`. -/
def quote (value : String) : String :=
  if value = "" then "" else shlexQuote (pyStrip value)

/-- app.py dataclass `NetemConfig` (the six enable flags default to `True`). -/
structure NetemConfig where
  uplink : String
  downlink : String
  delay_ms : String
  jitter_ms : String
  loss_pct : String
  duplicate_pct : String
  corrupt_pct : String
  rate_kbit : String
  delay_enabled : Bool := true
  jitter_enabled : Bool := true
  loss_enabled : Bool := true
  duplicate_enabled : Bool := true
  corrupt_enabled : Bool := true
  rate_enabled : Bool := true
deriving DecidableEq

/-- app.py `DEFAULTS`. -/
def DEFAULTS : NetemConfig :=
  { uplink := "eth0", downlink := "eth1", delay_ms := "500", jitter_ms := "100",
    loss_pct := "5", duplicate_pct := "0.1", corrupt_pct := "0.1", rate_kbit := "1000" }

/-- Raw form data (`request.form`): a finite string-to-string mapping,
modelled as an association list with at most one binding per key. -/
abbrev Form := List (String × String)

/-- Python `form.get(key, dflt)`. -/
def formGet (form : Form) (key dflt : String) : String :=
  match form.lookup key with
  | some v => v
  | none => dflt

/-- Python `key in form`. -/
def keyIn (key : String) (form : Form) : Bool :=
  form.any (fun kv => kv.fst == key)

/-- app.py `parse_bool`: `default` if the mapping is falsy (empty), else
`key in form`. -/
def parse_bool (form : Form) (key : String) (dflt : Bool) : Bool :=
  if form.isEmpty then dflt else keyIn key form

/-- Python `a or b` for strings: `b` when `a` is falsy (empty), else `a`. -/
def pyOr (a b : String) : String := if a = "" then b else a

/-- app.py `to_config`. -/
def to_config (form : Form) : NetemConfig :=
  { uplink := pyOr (formGet form "uplink" DEFAULTS.uplink) DEFAULTS.uplink,
    downlink := pyOr (formGet form "downlink" DEFAULTS.downlink) DEFAULTS.downlink,
    delay_ms := formGet form "delay_ms" DEFAULTS.delay_ms,
    jitter_ms := formGet form "jitter_ms" DEFAULTS.jitter_ms,
    loss_pct := formGet form "loss_pct" DEFAULTS.loss_pct,
    duplicate_pct := formGet form "duplicate_pct" DEFAULTS.duplicate_pct,
    corrupt_pct := formGet form "corrupt_pct" DEFAULTS.corrupt_pct,
    rate_kbit := formGet form "rate_kbit" DEFAULTS.rate_kbit,
    delay_enabled := parse_bool form "delay_enabled" true,
    jitter_enabled := parse_bool form "jitter_enabled" true,
    loss_enabled := parse_bool form "loss_enabled" true,
    duplicate_enabled := parse_bool form "duplicate_enabled" true,
    corrupt_enabled := parse_bool form "corrupt_enabled" true,
    rate_enabled := parse_bool form "rate_enabled" true }

/-- app.py `build_netem_clause`: the ordered piece list (delay/jitter, loss,
duplicate, corrupt), `delay 0ms` when empty, joined by single spaces. -/
def build_netem_clause (cfg : NetemConfig) : String :=
  let pieces : List String :=
    (if cfg.delay_enabled then
       let delay := pyOr cfg.delay_ms DEFAULTS.delay_ms
       if cfg.jitter_enabled then
         let jitter := pyOr cfg.jitter_ms DEFAULTS.jitter_ms
         ["delay " ++ delay ++ "ms " ++ jitter ++ "ms distribution normal"]
       else
         ["delay " ++ delay ++ "ms"]
     else if cfg.jitter_enabled then
       let jitter := pyOr cfg.jitter_ms DEFAULTS.jitter_ms
       ["delay 0ms " ++ jitter ++ "ms distribution normal"]
     else []) ++
    (if cfg.loss_enabled then ["loss " ++ pyOr cfg.loss_pct DEFAULTS.loss_pct ++ "%"] else []) ++
    (if cfg.duplicate_enabled then
       ["duplicate " ++ pyOr cfg.duplicate_pct DEFAULTS.duplicate_pct ++ "%"] else []) ++
    (if cfg.corrupt_enabled then
       ["corrupt " ++ pyOr cfg.corrupt_pct DEFAULTS.corrupt_pct ++ "%"] else [])
  let pieces := if pieces.isEmpty then ["delay 0ms"] else pieces
  String.intercalate " " pieces

/-- app.py `build_command`, as the ordered list of command lines (`steps`);
the flat script is the newline join, see `build_command`. -/
def build_command_lines (cfg : NetemConfig) : List String :=
  let uplink := quote cfg.uplink
  let downlink := quote cfg.downlink
  let netem_clause := build_netem_clause cfg
  let tc_head : List String :=
    ["# Reset old tc rules",
     "sudo tc qdisc del dev " ++ downlink ++ " root 2>/dev/null",
     "# Shape bandwidth and add netem"]
  let tc_section : List String :=
    if cfg.rate_enabled then
      let rate := pyOr cfg.rate_kbit DEFAULTS.rate_kbit
      tc_head ++
        ["sudo tc qdisc add dev " ++ downlink ++ " root handle 1: htb default 10",
         "sudo tc class add dev " ++ downlink ++ " parent 1: classid 1:10 htb rate " ++
           rate ++ "kbit ceil " ++ rate ++ "kbit",
         "sudo tc qdisc add dev " ++ downlink ++ " parent 1:10 handle 10: netem " ++ netem_clause]
    else
      tc_head ++ ["sudo tc qdisc add dev " ++ downlink ++ " root netem " ++ netem_clause]
  ["# Enable IPv4 forwarding",
   "sudo sysctl -w net.ipv4.ip_forward=1",
   "# NAT traffic from test network to uplink",
   "sudo iptables -t nat -F POSTROUTING",
   "sudo iptables -F FORWARD",
   "sudo iptables -t nat -A POSTROUTING -o " ++ uplink ++ " -j MASQUERADE",
   "sudo iptables -A FORWARD -i " ++ downlink ++ " -o " ++ uplink ++
     " -m state --state RELATED,ESTABLISHED -j ACCEPT",
   "sudo iptables -A FORWARD -i " ++ uplink ++ " -o " ++ downlink ++
     " -m state --state NEW -j ACCEPT"] ++ tc_section

/-- app.py `build_command`: `"\n".join(steps)`. -/
def build_command (cfg : NetemConfig) : String :=
  String.intercalate "\n" (build_command_lines cfg)

/-- The same command-line template with the two already-quoted interface
names passed explicitly, used to state that `build_command` interpolates
interface names only through `quote`. -/
def build_command_lines_quoted (uplink downlink : String) (cfg : NetemConfig) : List String :=
  let netem_clause := build_netem_clause cfg
  let tc_head : List String :=
    ["# Reset old tc rules",
     "sudo tc qdisc del dev " ++ downlink ++ " root 2>/dev/null",
     "# Shape bandwidth and add netem"]
  let tc_section : List String :=
    if cfg.rate_enabled then
      let rate := pyOr cfg.rate_kbit DEFAULTS.rate_kbit
      tc_head ++
        ["sudo tc qdisc add dev " ++ downlink ++ " root handle 1: htb default 10",
         "sudo tc class add dev " ++ downlink ++ " parent 1: classid 1:10 htb rate " ++
           rate ++ "kbit ceil " ++ rate ++ "kbit",
         "sudo tc qdisc add dev " ++ downlink ++ " parent 1:10 handle 10: netem " ++ netem_clause]
    else
      tc_head ++ ["sudo tc qdisc add dev " ++ downlink ++ " root netem " ++ netem_clause]
  ["# Enable IPv4 forwarding",
   "sudo sysctl -w net.ipv4.ip_forward=1",
   "# NAT traffic from test network to uplink",
   "sudo iptables -t nat -F POSTROUTING",
   "sudo iptables -F FORWARD",
   "sudo iptables -t nat -A POSTROUTING -o " ++ uplink ++ " -j MASQUERADE",
   "sudo iptables -A FORWARD -i " ++ downlink ++ " -o " ++ uplink ++
     " -m state --state RELATED,ESTABLISHED -j ACCEPT",
   "sudo iptables -A FORWARD -i " ++ uplink ++ " -o " ++ downlink ++
     " -m state --state NEW -j ACCEPT"] ++ tc_section

/-- app.py `build_reset_command`. -/
def build_reset_command (cfg : NetemConfig) : String :=
  let downlink := quote cfg.downlink
  String.intercalate "\n"
    ["sudo tc qdisc del dev " ++ downlink ++ " root 2>/dev/null",
     "sudo iptables -t nat -F POSTROUTING",
     "sudo iptables -F FORWARD"]

/-- Reset-script line template over the already-quoted downlink name. -/
def build_reset_lines_quoted (downlink : String) : List String :=
  ["sudo tc qdisc del dev " ++ downlink ++ " root 2>/dev/null",
   "sudo iptables -t nat -F POSTROUTING",
   "sudo iptables -F FORWARD"]

/-- Characters kept by `sanitize_preset_name`: `c.isalnum()` (modelled over
ASCII) or one of `-`, `_`, `.`. -/
def allowedChar (c : Char) : Bool := c.isAlphanum || c == '-' || c == '_' || c == '.'

/-- Test for the dot character, the argument of the final `.strip(".")`. -/
def isDot (c : Char) : Bool := c == '.'

/-- Python `str.strip(".")` on a character list: drop leading and trailing dots. -/
def stripDots (l : List Char) : List Char :=
  ((l.dropWhile isDot).reverse.dropWhile isDot).reverse

/-- app.py `sanitize_preset_name`. -/
def sanitize_preset_name (name : String) : String :=
  String.mk (stripDots (name.data.filter allowedChar))

/-- Values of the flat JSON record written by `json.dump(asdict(cfg))`:
every `NetemConfig` field is a string or a boolean. -/
inductive JsonVal where
  | str (s : String)
  | bool (b : Bool)
deriving DecidableEq

/-- One stored preset record: a flat key-value map. -/
abbrev Record := List (String × JsonVal)

/-- Python `dataclasses.asdict` on a `NetemConfig`, in field order. -/
def asdictC (cfg : NetemConfig) : Record :=
  [("uplink", .str cfg.uplink), ("downlink", .str cfg.downlink),
   ("delay_ms", .str cfg.delay_ms), ("jitter_ms", .str cfg.jitter_ms),
   ("loss_pct", .str cfg.loss_pct), ("duplicate_pct", .str cfg.duplicate_pct),
   ("corrupt_pct", .str cfg.corrupt_pct), ("rate_kbit", .str cfg.rate_kbit),
   ("delay_enabled", .bool cfg.delay_enabled), ("jitter_enabled", .bool cfg.jitter_enabled),
   ("loss_enabled", .bool cfg.loss_enabled), ("duplicate_enabled", .bool cfg.duplicate_enabled),
   ("corrupt_enabled", .bool cfg.corrupt_enabled), ("rate_enabled", .bool cfg.rate_enabled)]

/-- Key lookup in a stored record (`key in data` / `data[key]`). -/
def lookupRecord (data : Record) (key : String) : Option JsonVal :=
  data.lookup key

/-- String field of the merged dict `{**asdict(DEFAULTS), **data}`: the stored
value when the key is present, the default otherwise. -/
def strAt (data : Record) (key : String) (dflt : String) : String :=
  match lookupRecord data key with
  | some (.str s) => s
  | _ => dflt

/-- Boolean field of the merged dict, as `strAt`. -/
def boolAt (data : Record) (key : String) (dflt : Bool) : Bool :=
  match lookupRecord data key with
  | some (.bool b) => b
  | _ => dflt

/-- app.py `load_preset` body after the file read: `NetemConfig(**merged)`
with `merged = {**asdict(DEFAULTS), **data}` — stored fields override
defaults, missing fields keep defaults. -/
def mergeLoad (data : Record) : NetemConfig :=
  { uplink := strAt data "uplink" DEFAULTS.uplink,
    downlink := strAt data "downlink" DEFAULTS.downlink,
    delay_ms := strAt data "delay_ms" DEFAULTS.delay_ms,
    jitter_ms := strAt data "jitter_ms" DEFAULTS.jitter_ms,
    loss_pct := strAt data "loss_pct" DEFAULTS.loss_pct,
    duplicate_pct := strAt data "duplicate_pct" DEFAULTS.duplicate_pct,
    corrupt_pct := strAt data "corrupt_pct" DEFAULTS.corrupt_pct,
    rate_kbit := strAt data "rate_kbit" DEFAULTS.rate_kbit,
    delay_enabled := boolAt data "delay_enabled" DEFAULTS.delay_enabled,
    jitter_enabled := boolAt data "jitter_enabled" DEFAULTS.jitter_enabled,
    loss_enabled := boolAt data "loss_enabled" DEFAULTS.loss_enabled,
    duplicate_enabled := boolAt data "duplicate_enabled" DEFAULTS.duplicate_enabled,
    corrupt_enabled := boolAt data "corrupt_enabled" DEFAULTS.corrupt_enabled,
    rate_enabled := boolAt data "rate_enabled" DEFAULTS.rate_enabled }

/-- The preset directory: files `<safe_name>.json`, modelled as an
association list from sanitized names to records; a fresh write shadows
the previous file of the same name. -/
abbrev Store := List (String × Record)

/-- app.py `save_preset`: validation failure (status 1) on an empty sanitized
name, otherwise write `asdict(cfg)` under the sanitized name (status 0).
Returns the `(status, message)` pair together with the resulting store. -/
def save_preset (store : Store) (name : String) (cfg : NetemConfig) :
    (Nat × String) × Store :=
  let safe_name := sanitize_preset_name name
  if safe_name = "" then ((1, "Неверное имя пресета."), store)
  else ((0, "Сохранён пресет: " ++ safe_name), (safe_name, asdictC cfg) :: store)

/-- app.py `load_preset`: read `<sanitized>.json` (`none` models the
`FileNotFoundError` on a missing file) and merge the record over defaults. -/
def load_preset (store : Store) (name : String) : Option NetemConfig :=
  let safe_name := sanitize_preset_name name
  match store.lookup safe_name with
  | none => none
  | some data => some (mergeLoad data)

/-- Modes of the small POSIX shell word reader: outside quotes, inside
single quotes, inside double quotes. -/
inductive QMode where
  | normal
  | single
  | double

/-- Conservative reader of one shell word: succeeds only when every
character outside quotes is in the shlex-safe set (so no unquoted
metacharacter or whitespace), and returns the text the word denotes.
Inside double quotes the shell-active characters dollar, backslash and
backquote are rejected. -/
def parseWordAux : QMode → List Char → Option (List Char)
  | .normal, [] => some []
  | .normal, c :: cs =>
    if c = squoteC then parseWordAux .single cs
    else if c = dquoteC then parseWordAux .double cs
    else if shlexSafeChar c then (parseWordAux .normal cs).map (fun t => c :: t)
    else none
  | .single, [] => none
  | .single, c :: cs =>
    if c = squoteC then parseWordAux .normal cs
    else (parseWordAux .single cs).map (fun t => c :: t)
  | .double, [] => none
  | .double, c :: cs =>
    if c = dquoteC then parseWordAux .normal cs
    else if c = '$' || c = '\\' || c = Char.ofNat 96 then none
    else (parseWordAux .double cs).map (fun t => c :: t)

/-- Read a whole string as a single safely-quoted shell word. -/
def parseWord (s : String) : Option String :=
  (parseWordAux .normal s.data).map String.mk

/-- Spec-side helper for the default-substitution contract: replace every
empty enabled-value string of the netem fields by its documented default. -/
def fillNetemDefaults (cfg : NetemConfig) : NetemConfig :=
  { cfg with delay_ms := pyOr cfg.delay_ms DEFAULTS.delay_ms,
             jitter_ms := pyOr cfg.jitter_ms DEFAULTS.jitter_ms,
             loss_pct := pyOr cfg.loss_pct DEFAULTS.loss_pct,
             duplicate_pct := pyOr cfg.duplicate_pct DEFAULTS.duplicate_pct,
             corrupt_pct := pyOr cfg.corrupt_pct DEFAULTS.corrupt_pct }

/-- Absorbing `or`-defaulting: applying the empty-string fallback twice is
the same as applying it once. -/
theorem pyOr_pyOr (a b : String) : pyOr (pyOr a b) b = pyOr a b := by
  by_cases h : a = ""
  · by_cases hb : b = "" <;> simp [pyOr, h, hb]
  · simp [pyOr, h]

/-- The fallback of a non-empty default is non-empty. -/
theorem pyOr_ne (a b : String) (hb : b ≠ "") : pyOr a b ≠ "" := by
  by_cases h : a = ""
  · simp [pyOr, h, hb]
  · simp [pyOr, h]

/-- Safe characters parse literally in normal mode. -/
theorem parse_normal_of_safe :
    ∀ l : List Char, l.all shlexSafeChar = true → parseWordAux QMode.normal l = some l := by
  intro l h
  induction l with
  | nil => rfl
  | cons c cs ih =>
    simp only [List.all_cons, Bool.and_eq_true] at h
    have hc := h.1
    have h1 : c ≠ squoteC := by rintro rfl; exact absurd hc (by decide)
    have h2 : c ≠ dquoteC := by rintro rfl; exact absurd hc (by decide)
    simp [parseWordAux, h1, h2, hc, ih h.2]

/-- The single-quoted, escaped body produced by `escapeConcat` reads back as
the original characters: consuming `escapeConcat l` inside single quotes up
to a closing quote yields `l` prepended to whatever the rest parses to. -/
theorem parse_single_escape :
    ∀ (l rest : List Char),
      parseWordAux QMode.single (escapeConcat l ++ squoteC :: rest) =
        (parseWordAux QMode.normal rest).map (fun t => l ++ t) := by
  intro l
  induction l with
  | nil =>
    intro rest
    cases h : parseWordAux QMode.normal rest <;>
      simp [escapeConcat, parseWordAux, h]
  | cons c cs ih =>
    intro rest
    by_cases hc : c = squoteC
    · subst hc
      have e1 : squoteC ≠ dquoteC := by decide
      have e2 : dquoteC ≠ squoteC := by decide
      have e3 : squoteC ≠ '$' := by decide
      have e4 : squoteC ≠ '\\' := by decide
      have e5 : squoteC ≠ Char.ofNat 96 := by decide
      cases h : parseWordAux QMode.normal rest <;>
        simp [escapeConcat, escapeChar, parseWordAux, e1, e2, e3, e4, e5, ih, h]
    · have hb : (c == squoteC) = false := by simp [hc]
      cases h : parseWordAux QMode.normal rest <;>
        simp [escapeConcat, escapeChar, parseWordAux, hb, hc, ih, h]

/-- shlex.quote output reads back as exactly the input characters. -/
theorem parse_shlexQuoteData (l : List Char) :
    parseWordAux QMode.normal (shlexQuoteData l) = some l := by
  by_cases h0 : l.isEmpty
  · have : l = [] := by simpa using h0
    subst this
    decide
  · by_cases h1 : l.all shlexSafeChar
    · simp [shlexQuoteData, h0, h1, parse_normal_of_safe l h1]
    · have h2 := parse_single_escape l []
      simp [shlexQuoteData, h0, h1, parseWordAux]
      rw [show escapeConcat l ++ [squoteC] = escapeConcat l ++ squoteC :: [] from rfl, h2]
      simp [parseWordAux]

/-- shlex.quote produces one safely quoted shell word denoting its input. -/
theorem parseWord_shlexQuote (s : String) : parseWord (shlexQuote s) = some s := by
  cases s with
  | mk data => simp [parseWord, shlexQuote, parse_shlexQuoteData]

/-- app.py `quote` of a non-empty value is one safely quoted shell word
denoting the stripped value. -/
theorem quote_parses (s : String) (h : s ≠ "") : parseWord (quote s) = some (pyStrip s) := by
  unfold quote
  rw [if_neg h]
  exact parseWord_shlexQuote (pyStrip s)

/-- Membership is preserved from `dropWhile` back to the original list. -/
theorem mem_of_mem_dropWhile {α : Type} (p : α → Bool) :
    ∀ (l : List α) (a : α), a ∈ l.dropWhile p → a ∈ l := by
  intro l
  induction l with
  | nil => intro a h; simp at h
  | cons c cs ih =>
    intro a h
    by_cases hc : p c
    · rw [List.dropWhile_cons, if_pos hc] at h
      exact List.mem_cons_of_mem _ (ih a h)
    · rwa [List.dropWhile_cons, if_neg hc] at h

/-- The head surviving a `dropWhile` fails the predicate. -/
theorem dropWhile_head?_not {α : Type} (p : α → Bool) :
    ∀ (l : List α) (x : α), (l.dropWhile p).head? = some x → p x = false := by
  intro l
  induction l with
  | nil => intro x h; simp [List.dropWhile] at h
  | cons c cs ih =>
    intro x h
    by_cases hc : p c
    · rw [List.dropWhile_cons, if_pos hc] at h
      exact ih x h
    · rw [List.dropWhile_cons, if_neg hc] at h
      simp only [List.head?_cons, Option.some.injEq] at h
      subst h
      simpa using hc

/-- A list whose head (if any) fails the predicate is unchanged by `dropWhile`. -/
theorem dropWhile_eq_self_of_head? {α : Type} (p : α → Bool) (l : List α)
    (h : ∀ x, l.head? = some x → p x = false) : l.dropWhile p = l := by
  cases l with
  | nil => rfl
  | cons c cs =>
    have := h c rfl
    rw [List.dropWhile_cons, if_neg (by simp [this])]

/-- `dropWhile` keeps the last element when its result is non-empty. -/
theorem getLast?_dropWhile {α : Type} (p : α → Bool) :
    ∀ l : List α, l.dropWhile p ≠ [] → (l.dropWhile p).getLast? = l.getLast? := by
  intro l
  induction l with
  | nil => intro h; simp [List.dropWhile] at h
  | cons c cs ih =>
    intro h
    by_cases hc : p c
    · rw [List.dropWhile_cons, if_pos hc] at h ⊢
      have hcs : cs ≠ [] := by
        rintro rfl
        simp [List.dropWhile] at h
      rw [ih h]
      cases cs with
      | nil => exact absurd rfl hcs
      | cons d ds => simp [List.getLast?_cons_cons]
    · rw [List.dropWhile_cons, if_neg hc]

/-- The first character of a dot-stripped list is not a dot. -/
theorem stripDots_head? (l : List Char) :
    ∀ x : Char, (stripDots l).head? = some x → isDot x = false := by
  intro x h
  unfold stripDots at h
  rw [List.head?_reverse] at h
  cases hz : ((l.dropWhile isDot).reverse.dropWhile isDot) with
  | nil => rw [hz] at h; simp at h
  | cons a as =>
    have hne : ((l.dropWhile isDot).reverse.dropWhile isDot) ≠ [] := by
      rw [hz]; simp
    rw [getLast?_dropWhile _ _ hne, List.getLast?_reverse] at h
    exact dropWhile_head?_not _ _ _ h

/-- The last character of a dot-stripped list is not a dot. -/
theorem stripDots_getLast? (l : List Char) :
    ∀ x : Char, (stripDots l).getLast? = some x → isDot x = false := by
  intro x h
  unfold stripDots at h
  rw [List.getLast?_reverse] at h
  exact dropWhile_head?_not _ _ _ h

/-- Stripping dots from a list that neither starts nor ends with a dot is
the identity. -/
theorem stripDots_eq_self {l : List Char}
    (h1 : ∀ x, l.head? = some x → isDot x = false)
    (h2 : ∀ x, l.getLast? = some x → isDot x = false) : stripDots l = l := by
  unfold stripDots
  rw [dropWhile_eq_self_of_head? _ _ h1]
  rw [dropWhile_eq_self_of_head? _ _ (fun x hx => h2 x (by rwa [List.head?_reverse] at hx))]
  exact List.reverse_reverse l

/-- Every character of a stripped filtered list comes from the filtered list. -/
theorem mem_of_mem_stripDots (l : List Char) (a : Char) (h : a ∈ stripDots l) : a ∈ l := by
  unfold stripDots at h
  rw [List.mem_reverse] at h
  have h' := mem_of_mem_dropWhile _ _ _ h
  rw [List.mem_reverse] at h'
  exact mem_of_mem_dropWhile _ _ _ h'

/-- Sanitization is idempotent: the sanitized name is already sanitized. -/
theorem sanitize_idem (name : String) :
    sanitize_preset_name (sanitize_preset_name name) = sanitize_preset_name name := by
  show String.mk (stripDots ((stripDots (name.data.filter allowedChar)).filter allowedChar)) =
    String.mk (stripDots (name.data.filter allowedChar))
  have hall : ∀ a ∈ stripDots (name.data.filter allowedChar), allowedChar a = true := by
    intro a ha
    exact List.of_mem_filter (mem_of_mem_stripDots _ a ha)
  rw [List.filter_eq_self.mpr hall]
  rw [stripDots_eq_self (stripDots_head? _) (stripDots_getLast? _)]

/-- Loading back the record written by `asdict` restores the configuration. -/
theorem mergeLoad_asdictC (cfg : NetemConfig) : mergeLoad (asdictC cfg) = cfg := by
  cases cfg
  rfl

/-- Claim C1: for the config uplink `eth0`, downlink `eth1`, rate `1000`
(enabled), delay `500` (enabled), jitter `100` (enabled), loss `5`
(enabled), duplicate and corrupt disabled, the apply script of
`build_command` is exactly this ordered line list — the sysctl forwarding
enable, the NAT POSTROUTING and FORWARD flushes, the MASQUERADE rule, the
two FORWARD accept rules, the qdisc deletion with `2>/dev/null`, and the
final three lines installing the HTB root qdisc on `eth1` with one class
at rate and ceil 1000kbit and the netem
`delay 500ms 100ms distribution normal loss 5%` as a child of that class. -/
theorem c1_apply_script_end_to_end :
    build_command_lines
        ⟨"eth0", "eth1", "500", "100", "5", "0.1", "0.1", "1000",
         true, true, true, false, false, true⟩ =
      ["# Enable IPv4 forwarding",
       "sudo sysctl -w net.ipv4.ip_forward=1",
       "# NAT traffic from test network to uplink",
       "sudo iptables -t nat -F POSTROUTING",
       "sudo iptables -F FORWARD",
       "sudo iptables -t nat -A POSTROUTING -o eth0 -j MASQUERADE",
       "sudo iptables -A FORWARD -i eth1 -o eth0 -m state --state RELATED,ESTABLISHED -j ACCEPT",
       "sudo iptables -A FORWARD -i eth0 -o eth1 -m state --state NEW -j ACCEPT",
       "# Reset old tc rules",
       "sudo tc qdisc del dev eth1 root 2>/dev/null",
       "# Shape bandwidth and add netem",
       "sudo tc qdisc add dev eth1 root handle 1: htb default 10",
       "sudo tc class add dev eth1 parent 1: classid 1:10 htb rate 1000kbit ceil 1000kbit",
       "sudo tc qdisc add dev eth1 parent 1:10 handle 10: netem delay 500ms 100ms distribution normal loss 5%"]
    ∧ (build_command_lines
        ⟨"eth0", "eth1", "500", "100", "5", "0.1", "0.1", "1000",
         true, true, true, false, false, true⟩).drop 11 =
      ["sudo tc qdisc add dev eth1 root handle 1: htb default 10",
       "sudo tc class add dev eth1 parent 1: classid 1:10 htb rate 1000kbit ceil 1000kbit",
       "sudo tc qdisc add dev eth1 parent 1:10 handle 10: netem delay 500ms 100ms distribution normal loss 5%"] :=
  ⟨rfl, rfl⟩

/-- Claim C2 counterexample: for the non-empty form mapping binding only
`delay_enabled`, the key `jitter_enabled` is absent, so the claim demands
the supplied default `true`; the code instead computes `key in form`,
which is `false`. -/
theorem c2_counterexample :
    ¬ ((to_config [("delay_enabled", "on")]).jitter_enabled = true) := by
  decide

/-- Claim C2 (amended): each boolean flag of `to_config` is true exactly
when the mapping is empty (the default, which is true, applies) or the key
is present; in particular a present key yields true regardless of its
value's truthiness, and a key absent from a non-empty mapping yields
false, not the default. -/
theorem c2_flag_semantics (form : Form) :
    (to_config form).delay_enabled = (form.isEmpty || keyIn "delay_enabled" form)
    ∧ (to_config form).jitter_enabled = (form.isEmpty || keyIn "jitter_enabled" form)
    ∧ (to_config form).loss_enabled = (form.isEmpty || keyIn "loss_enabled" form)
    ∧ (to_config form).duplicate_enabled = (form.isEmpty || keyIn "duplicate_enabled" form)
    ∧ (to_config form).corrupt_enabled = (form.isEmpty || keyIn "corrupt_enabled" form)
    ∧ (to_config form).rate_enabled = (form.isEmpty || keyIn "rate_enabled" form) := by
  cases h : form.isEmpty <;> simp [to_config, parse_bool, h]

/-- Claim C3: an interface name (uplink or downlink) containing whitespace
or a shell metacharacter — any character outside the shlex-safe set —
reaches the rendered output of `build_command` and `build_reset_command`
only through `quote`, and the quoted form is a single safely escaped shell
word denoting exactly the stripped name, never a raw interpolation. -/
theorem c3_interface_names_quoted (cfg : NetemConfig) (name : String)
    (hname : name = cfg.uplink ∨ name = cfg.downlink)
    (hmeta : ∃ c ∈ name.data, shlexSafeChar c = false) :
    parseWord (quote name) = some (pyStrip name)
    ∧ build_command_lines cfg =
        build_command_lines_quoted (quote cfg.uplink) (quote cfg.downlink) cfg
    ∧ build_reset_command cfg =
        String.intercalate "\n" (build_reset_lines_quoted (quote cfg.downlink)) := by
  obtain ⟨c, hc, -⟩ := hmeta
  have hne : name ≠ "" := by
    rintro rfl
    simp at hc
  exact ⟨quote_parses name hne, rfl, rfl⟩

/-- Witness for C3 at the concrete config with uplink `eth 0` (whitespace)
and downlink `eth;1` (shell metacharacter). -/
theorem c3_interface_names_quoted_witness :
    parseWord (quote "eth;1") = some (pyStrip "eth;1")
    ∧ build_command_lines
        ⟨"eth 0", "eth;1", "500", "100", "5", "0.1", "0.1", "1000",
         true, true, true, true, true, true⟩ =
      build_command_lines_quoted (quote "eth 0") (quote "eth;1")
        ⟨"eth 0", "eth;1", "500", "100", "5", "0.1", "0.1", "1000",
         true, true, true, true, true, true⟩
    ∧ build_reset_command
        ⟨"eth 0", "eth;1", "500", "100", "5", "0.1", "0.1", "1000",
         true, true, true, true, true, true⟩ =
      String.intercalate "\n" (build_reset_lines_quoted (quote "eth;1")) :=
  c3_interface_names_quoted _ "eth;1" (Or.inr rfl) (by decide)

/-- Claim C4: with the other netem features disabled, delay `500` enabled
with jitter `100` enabled renders `delay 500ms 100ms distribution normal`;
delay disabled with jitter `100` enabled renders
`delay 0ms 100ms distribution normal` (a zero base delay is synthesized);
delay `500` enabled with jitter disabled renders only `delay 500ms`. -/
theorem c4_delay_jitter_rendering :
    ∀ (u d l dp cr r : String) (re : Bool),
      build_netem_clause ⟨u, d, "500", "100", l, dp, cr, r, true, true, false, false, false, re⟩ =
        "delay 500ms 100ms distribution normal"
      ∧ build_netem_clause ⟨u, d, "500", "100", l, dp, cr, r, false, true, false, false, false, re⟩ =
        "delay 0ms 100ms distribution normal"
      ∧ build_netem_clause ⟨u, d, "500", "100", l, dp, cr, r, true, false, false, false, false, re⟩ =
        "delay 500ms" := by
  intro u d l dp cr r re
  exact ⟨rfl, rfl, rfl⟩

/-- Claim C5: with all six features disabled the netem clause is exactly
`delay 0ms`, whatever the value strings are — never an empty clause. -/
theorem c5_all_disabled_clause :
    ∀ u d dm jm l dp cr r : String,
      build_netem_clause ⟨u, d, dm, jm, l, dp, cr, r, false, false, false, false, false, false⟩ =
        "delay 0ms" := by
  intro u d dm jm l dp cr r
  rfl

/-- Claim C6: sub-clauses keep the fixed order delay/jitter, loss,
duplicate, corrupt — with loss `5`, duplicate `0.1` and corrupt `0.1`
enabled and delay/jitter disabled the clause is exactly
`loss 5% duplicate 0.1% corrupt 0.1%` — and each enabled value substitutes
its documented default when the configured string is empty (rendering a
config is the same as rendering it with empty netem values replaced by
their defaults). -/
theorem c6_order_and_defaults :
    (∀ (u d dm jm r : String) (re : Bool),
        build_netem_clause ⟨u, d, dm, jm, "5", "0.1", "0.1", r, false, false, true, true, true, re⟩ =
          "loss 5% duplicate 0.1% corrupt 0.1%")
    ∧ (∀ cfg : NetemConfig, build_netem_clause (fillNetemDefaults cfg) = build_netem_clause cfg) := by
  constructor
  · intro u d dm jm r re
    rfl
  · intro cfg
    cases cfg with
    | mk up dn dm jm lp dp cp rk den jen len dupen cen ren =>
      cases den <;> cases jen <;> cases len <;> cases dupen <;> cases cen <;>
        simp [build_netem_clause, fillNetemDefaults, pyOr_pyOr, DEFAULTS]

/-- Claim C7: saving a preset under a name with non-empty sanitized form
succeeds (status 0) and loading by the same sanitized name returns exactly
the saved config (every field the save captured); and for any stored
record, every field whose key is absent resolves to its documented
default while stored fields override defaults. -/
theorem c7_preset_roundtrip (store : Store) (name : String) (cfg : NetemConfig)
    (h : sanitize_preset_name name ≠ "") :
    (save_preset store name cfg).1.1 = 0
    ∧ load_preset (save_preset store name cfg).2 (sanitize_preset_name name) = some cfg
    ∧ ∀ data : Record,
        (lookupRecord data "uplink" = none → (mergeLoad data).uplink = DEFAULTS.uplink)
        ∧ (lookupRecord data "downlink" = none → (mergeLoad data).downlink = DEFAULTS.downlink)
        ∧ (lookupRecord data "delay_ms" = none → (mergeLoad data).delay_ms = DEFAULTS.delay_ms)
        ∧ (lookupRecord data "jitter_ms" = none → (mergeLoad data).jitter_ms = DEFAULTS.jitter_ms)
        ∧ (lookupRecord data "loss_pct" = none → (mergeLoad data).loss_pct = DEFAULTS.loss_pct)
        ∧ (lookupRecord data "duplicate_pct" = none →
            (mergeLoad data).duplicate_pct = DEFAULTS.duplicate_pct)
        ∧ (lookupRecord data "corrupt_pct" = none →
            (mergeLoad data).corrupt_pct = DEFAULTS.corrupt_pct)
        ∧ (lookupRecord data "rate_kbit" = none → (mergeLoad data).rate_kbit = DEFAULTS.rate_kbit)
        ∧ (lookupRecord data "delay_enabled" = none →
            (mergeLoad data).delay_enabled = DEFAULTS.delay_enabled)
        ∧ (lookupRecord data "jitter_enabled" = none →
            (mergeLoad data).jitter_enabled = DEFAULTS.jitter_enabled)
        ∧ (lookupRecord data "loss_enabled" = none →
            (mergeLoad data).loss_enabled = DEFAULTS.loss_enabled)
        ∧ (lookupRecord data "duplicate_enabled" = none →
            (mergeLoad data).duplicate_enabled = DEFAULTS.duplicate_enabled)
        ∧ (lookupRecord data "corrupt_enabled" = none →
            (mergeLoad data).corrupt_enabled = DEFAULTS.corrupt_enabled)
        ∧ (lookupRecord data "rate_enabled" = none →
            (mergeLoad data).rate_enabled = DEFAULTS.rate_enabled) := by
  refine ⟨?_, ?_, ?_⟩
  · simp [save_preset, h]
  · simp [save_preset, h, load_preset, sanitize_idem, List.lookup, mergeLoad_asdictC]
  · intro data
    exact ⟨fun hk => by simp [mergeLoad, strAt, hk],
           fun hk => by simp [mergeLoad, strAt, hk],
           fun hk => by simp [mergeLoad, strAt, hk],
           fun hk => by simp [mergeLoad, strAt, hk],
           fun hk => by simp [mergeLoad, strAt, hk],
           fun hk => by simp [mergeLoad, strAt, hk],
           fun hk => by simp [mergeLoad, strAt, hk],
           fun hk => by simp [mergeLoad, strAt, hk],
           fun hk => by simp [mergeLoad, boolAt, hk],
           fun hk => by simp [mergeLoad, boolAt, hk],
           fun hk => by simp [mergeLoad, boolAt, hk],
           fun hk => by simp [mergeLoad, boolAt, hk],
           fun hk => by simp [mergeLoad, boolAt, hk],
           fun hk => by simp [mergeLoad, boolAt, hk]⟩

/-- Witness for C7: saving `DEFAULTS` under the name `lab` and loading by
the sanitized name returns the saved config. -/
theorem c7_preset_roundtrip_witness :
    sanitize_preset_name "lab" ≠ ""
    ∧ load_preset (save_preset [] "lab" DEFAULTS).2 (sanitize_preset_name "lab") = some DEFAULTS :=
  ⟨by decide, (c7_preset_roundtrip [] "lab" DEFAULTS (by decide)).2.1⟩

/-- Claim C8: for every input string the sanitized preset name contains
only allowed characters (alphanumeric, `-`, `_`, `.`) and neither starts
nor ends with `.`; saving under a name whose sanitized form is empty is a
validation failure returned as the status/message pair `(1, message)`
with the store unchanged. -/
theorem c8_sanitize_and_validation (name : String) (store : Store) (cfg : NetemConfig) :
    (∀ c ∈ (sanitize_preset_name name).data, allowedChar c = true)
    ∧ (∀ c : Char, (sanitize_preset_name name).data.head? = some c → isDot c = false)
    ∧ (∀ c : Char, (sanitize_preset_name name).data.getLast? = some c → isDot c = false)
    ∧ (sanitize_preset_name name = "" →
        save_preset store name cfg = ((1, "Неверное имя пресета."), store)) := by
  refine ⟨?_, ?_, ?_, ?_⟩
  · intro c hc
    have hc' : c ∈ stripDots (name.data.filter allowedChar) := hc
    exact List.of_mem_filter (mem_of_mem_stripDots _ c hc')
  · exact fun c => stripDots_head? _ c
  · exact fun c => stripDots_getLast? _ c
  · intro h0
    simp [save_preset, h0]

/-- Witness for C8 at the name `..`, which sanitizes to the empty string:
saving is rejected with status 1 and the store is unchanged. -/
theorem c8_sanitize_and_validation_witness :
    sanitize_preset_name ".." = ""
    ∧ save_preset [] ".." DEFAULTS = ((1, "Неверное имя пресета."), []) :=
  ⟨by decide, (c8_sanitize_and_validation ".." [] DEFAULTS).2.2.2 (by decide)⟩

/-- Claim C9: two configs agreeing on `downlink` render byte-identical
reset scripts — the reset script depends on no other field — and the
script is the qdisc deletion with `2>/dev/null` followed by the NAT
POSTROUTING and FORWARD flushes. -/
theorem c9_reset_only_downlink (cfg1 cfg2 : NetemConfig)
    (h : cfg1.downlink = cfg2.downlink) :
    build_reset_command cfg1 = build_reset_command cfg2
    ∧ build_reset_command cfg1 =
        String.intercalate "\n"
          ["sudo tc qdisc del dev " ++ quote cfg1.downlink ++ " root 2>/dev/null",
           "sudo iptables -t nat -F POSTROUTING",
           "sudo iptables -F FORWARD"] :=
  ⟨by simp [build_reset_command, h], rfl⟩

/-- Witness for C9 at two configs sharing only the downlink `eth1`. -/
theorem c9_reset_only_downlink_witness :
    build_reset_command
        ⟨"eth0", "eth1", "500", "100", "5", "0.1", "0.1", "1000",
         true, true, true, true, true, true⟩ =
      build_reset_command
        ⟨"wan0", "eth1", "", "", "", "", "", "",
         false, false, false, false, false, false⟩
    ∧ build_reset_command
        ⟨"eth0", "eth1", "500", "100", "5", "0.1", "0.1", "1000",
         true, true, true, true, true, true⟩ =
      String.intercalate "\n"
        ["sudo tc qdisc del dev " ++ quote "eth1" ++ " root 2>/dev/null",
         "sudo iptables -t nat -F POSTROUTING",
         "sudo iptables -F FORWARD"] :=
  c9_reset_only_downlink _ _ rfl

/-- Claim C10: for every raw form mapping — including the empty mapping and
mappings binding `uplink` or `downlink` to the empty string — the config
has non-empty uplink and downlink, and an absent or empty interface field
falls back to `eth0` / `eth1`. -/
theorem c10_interfaces_nonempty (form : Form) :
    (to_config form).uplink ≠ ""
    ∧ (to_config form).downlink ≠ ""
    ∧ (form.lookup "uplink" = none ∨ form.lookup "uplink" = some "" →
        (to_config form).uplink = "eth0")
    ∧ (form.lookup "downlink" = none ∨ form.lookup "downlink" = some "" →
        (to_config form).downlink = "eth1") := by
  refine ⟨?_, ?_, ?_, ?_⟩
  · show pyOr (formGet form "uplink" DEFAULTS.uplink) DEFAULTS.uplink ≠ ""
    exact pyOr_ne _ _ (by decide)
  · show pyOr (formGet form "downlink" DEFAULTS.downlink) DEFAULTS.downlink ≠ ""
    exact pyOr_ne _ _ (by decide)
  · rintro (h | h) <;> simp [to_config, formGet, h, pyOr, DEFAULTS]
  · rintro (h | h) <;> simp [to_config, formGet, h, pyOr, DEFAULTS]

/-- Witness for C10 at a mapping binding `uplink` to the empty string. -/
theorem c10_interfaces_nonempty_witness :
    (to_config [("uplink", ""), ("downlink", "wan1")]).uplink = "eth0"
    ∧ (to_config [("uplink", ""), ("downlink", "wan1")]).downlink ≠ "" :=
  ⟨(c10_interfaces_nonempty _).2.2.1 (Or.inr rfl), (c10_interfaces_nonempty _).2.1⟩

end BadNetwork
